import Mathlib

/-!
Shallow embedding of `src/frontend/script.js` (college-voice-assistant).

The file is browser UI code: globals (`currentLanguage`, `isRecording`, ...),
DOM elements holding UI state, and `async` functions issuing `fetch` calls.
The embedding represents the observable UI/session state as the structure
`UIState`, and each JS function as a pure Lean function from the state (plus
the outcome of any `fetch` it performs, supplied as an argument, since the
network is an external collaborator) to the next state.  A JS `try/catch`
becomes explicit case analysis on the fetch outcome; JS exceptions that the
code catches are the `networkError` / parse-`error` cases, so totality of the
Lean functions reflects that no exception escapes the operation.
`console.*` output, timestamps, scroll positions and audio playback calls are
not part of the modelled state.
-/

namespace VoiceAssistant

/-- Sender tag of a chat message: the CSS class `message ${sender}`. -/
inductive Sender
  | user
  | bot
  | system
deriving DecidableEq, Repr

/-- A rendered chat message (one `message` div created by `addMessage`):
its sender class, its text, and whether the `malayalam-text` class was added. -/
structure Message where
  sender : Sender
  text : String
  malayalamClass : Bool
deriving DecidableEq, Repr

/-- A log entry created by `logToSystem`: the `log-entry ${type}` class level
and the message text (the timestamp part is not modelled). -/
structure LogEntry where
  level : String
  message : String
deriving DecidableEq, Repr

/-- A rendered document entry created inside `loadDocuments`:
`Document #${index+1}`, the EN part (`textParts[0] || ''`), and the optional
ML / Manglish parts, present only when the corresponding split part is truthy
(a non-empty string). -/
structure DocItem where
  number : Nat
  en : String
  ml : Option String
  manglish : Option String
deriving DecidableEq, Repr

/-- Whether a character is whitespace for JavaScript `String.prototype.trim`
(WhiteSpace and LineTerminator code points). -/
def isJsWhitespace (c : Char) : Bool :=
  c = ' ' || c = '\t' || c = '\n' || c = '\r' ||
  c.toNat = 0x0B || c.toNat = 0x0C || c.toNat = 0xA0 || c.toNat = 0x1680 ||
  (0x2000 ≤ c.toNat && c.toNat ≤ 0x200A) ||
  c.toNat = 0x2028 || c.toNat = 0x2029 || c.toNat = 0x202F ||
  c.toNat = 0x205F || c.toNat = 0x3000 || c.toNat = 0xFEFF

/-- JavaScript `s.trim()`. -/
def jsTrim (s : String) : String :=
  ⟨((s.data.dropWhile isJsWhitespace).reverse.dropWhile isJsWhitespace).reverse⟩

/-- JavaScript `s.substring(0, 50)` (used for log excerpts). -/
def jsSubstring50 (s : String) : String :=
  ⟨s.data.take 50⟩

/-- The test `text.match(/[ഀ-ൿ]/)` in `addMessage`: true iff some
character lies in the Malayalam Unicode block. -/
def hasMalayalam (text : String) : Bool :=
  text.data.any (fun c => decide (0x0D00 ≤ c.toNat ∧ c.toNat ≤ 0x0D7F))

/-- The whole observable state of the page: the JS module globals, the DOM
elements the script reads or writes, and the trace of `fetch` calls issued
(recorded by the path requested, so that claims about "no network call" and
"triggers one listDocuments call" are statable). -/
structure UIState where
  currentLanguage : String
  isRecording : Bool
  /-- `recognition !== null`, i.e. webkitSpeechRecognition was available. -/
  recognitionSupported : Bool
  /-- `recognition.lang`. -/
  recognitionLang : String
  /-- A recognition session has started (onstart fired) and not ended. -/
  recognitionActive : Bool
  /-- A MediaRecorder session has started and not stopped. -/
  captureActive : Bool
  /-- `messageInput.value`. -/
  messageInput : String
  /-- `messageInput.placeholder`. -/
  placeholder : String
  speechSynthesisSupported : Bool
  /-- `responseAudio.src` when set. -/
  audioSrc : Option String
  /-- Utterances passed to `speechSynthesis.speak`: text and locale. -/
  utterances : List (String × String)
  /-- Children of `chatMessages`, in order. -/
  chat : List Message
  /-- Children of `logsContainer`, in order. -/
  logs : List LogEntry
  /-- Children of `documentsList`, in order. -/
  documentsList : List DocItem
  /-- `englishText.value`. -/
  formEnglish : String
  /-- `malayalamText.value`. -/
  formMalayalam : String
  /-- `manglishText.value`. -/
  formManglish : String
  /-- Messages shown via `alert(...)`. -/
  alerts : List String
  /-- Paths of the `fetch` requests issued, in order. -/
  fetchCalls : List String
deriving DecidableEq, Repr

/-- `addMessage(sender, text)`: appends a message div to `chatMessages` and
adds the `malayalam-text` class when the Malayalam regex matches. -/
def addMessage (chat : List Message) (sender : Sender) (text : String) :
    List Message :=
  chat ++ [{ sender := sender, text := text, malayalamClass := hasMalayalam text }]

/-- `logToSystem(message, type)`: appends a `log-entry ${type}` div. -/
def logToSystem (logs : List LogEntry) (message : String) (level : String) :
    List LogEntry :=
  logs ++ [{ level := level, message := message }]

/-- The outcome of one `fetch`: either the promise rejects (network error with
an `error.message`), or an HTTP response arrives with a status code and a
body whose `response.json()` either resolves to a parsed value or rejects. -/
inductive FetchOutcome (β : Type)
  | networkError (msg : String)
  | response (status : Nat) (json : Except String β)

/-- `response.ok`: status in the 2xx range. -/
def statusOk (status : Nat) : Bool :=
  decide (200 ≤ status ∧ status ≤ 299)

/-- Parsed body of `POST /api/query`: `{answer, language, audio_url?}`. -/
structure QueryData where
  answer : String
  language : Option String
  audio_url : Option String
deriving DecidableEq, Repr

/-- Parsed body of `GET /api/documents`.  `documents` is `none` when the
parsed JSON lacks the `documents` array (then `data.documents.forEach`
throws a TypeError inside the `try`); each element is the `text` field of a
document object. -/
structure DocsBody where
  documents : Option (List String)
deriving DecidableEq, Repr

/-- Parsed body of `POST /api/add-document`: `{id}`. -/
structure AddDocData where
  id : String
deriving DecidableEq, Repr

/-- Parsed body of `POST /api/voice-query`: `{text, answer, audio_url?}`. -/
structure VoiceData where
  text : String
  answer : String
  audio_url : Option String
deriving DecidableEq, Repr

/-- The `API_BASE_URL` constant. -/
def apiBaseUrl : String := "http://localhost:8000"

/-- The generic bot message of `sendMessage`'s catch block. -/
def queryErrorMessage : String :=
  "Sorry, there was an error processing your request. Please try again."

/-- The message text of the TypeError raised by `data.documents.forEach`
when `documents` is absent (its exact wording is browser-dependent; it is a
fixed string for the model). -/
def undefinedForEachMessage : String :=
  "data.documents is undefined"

/-- `speakText(text, language)`: browser TTS fallback.  The locale switch is
on the `language` value of the response (`null`/absent falls to default). -/
def speakText (st : UIState) (text : String) (language : Option String) :
    UIState :=
  if st.speechSynthesisSupported then
    let lang :=
      match language with
      | some "ml" => "ml-IN"
      | some "manglish" => "en-IN"
      | _ => "en-US"
    { st with utterances := st.utterances ++ [(text, lang)] }
  else st

/-- `sendMessage()`: trims the input; returns unchanged when empty (`if
(!text) return`); otherwise appends the user message, clears the input,
issues the `/api/query` fetch and handles its outcome.  A non-ok status is
thrown and caught; network or JSON-parse failures land in the same catch,
which appends one generic bot message and one error log entry. -/
def sendMessage (st : UIState) (outcome : FetchOutcome QueryData) : UIState :=
  let text := jsTrim st.messageInput
  if text = "" then st
  else
    let st := { st with chat := addMessage st.chat .user text, messageInput := "" }
    let st := { st with fetchCalls := st.fetchCalls ++ ["/api/query"] }
    let caught := fun (st : UIState) (msg : String) =>
      let st := { st with chat := addMessage st.chat .bot queryErrorMessage }
      { st with logs := logToSystem st.logs ("Error: " ++ msg) "error" }
    match outcome with
    | .networkError msg => caught st msg
    | .response status json =>
      if !statusOk status then
        caught st ("HTTP error! status: " ++ toString status)
      else
        match json with
        | .error msg => caught st msg
        | .ok data =>
          let st := { st with chat := addMessage st.chat .bot data.answer }
          let st :=
            match data.audio_url with
            | some url => { st with audioSrc := some (apiBaseUrl ++ url) }
            | none => speakText st data.answer data.language
          let line := "User query: \"" ++ text ++ "\" -> Response: \"" ++
            jsSubstring50 data.answer ++ "...\""
          { st with logs := logToSystem st.logs line "info" }

/-- One document div of `loadDocuments`: the text is split on `|`, each part
trimmed; the ML / Manglish lines render only when the part is truthy. -/
def renderDocument (index : Nat) (text : String) : DocItem :=
  let textParts := (text.splitOn "|").map jsTrim
  { number := index + 1
    en := textParts.headD ""
    ml :=
      match textParts[1]? with
      | some p => if p = "" then none else some p
      | none => none
    manglish :=
      match textParts[2]? with
      | some p => if p = "" then none else some p
      | none => none }

/-- `loadDocuments()`: fetches `/api/documents` and parses the JSON without
checking `response.ok`.  On success it clears and re-renders the document
list and logs an info entry.  Any caught error (network, JSON parse, or the
TypeError when `documents` is absent — the latter occurring after the list
was already cleared) produces one error log entry and nothing else. -/
def loadDocuments (st : UIState) (outcome : FetchOutcome DocsBody) : UIState :=
  let st := { st with fetchCalls := st.fetchCalls ++ ["/api/documents"] }
  let caught := fun (st : UIState) (msg : String) =>
    { st with logs := logToSystem st.logs ("Error loading documents: " ++ msg) "error" }
  match outcome with
  | .networkError msg => caught st msg
  | .response _status json =>
    match json with
    | .error msg => caught st msg
    | .ok body =>
      match body.documents with
      | none =>
        let st := { st with documentsList := [] }
        caught st undefinedForEachMessage
      | some docs =>
        let rendered := docs.enum.map (fun p => renderDocument p.1 p.2)
        let st := { st with documentsList := rendered }
        let line := "Loaded " ++ toString docs.length ++ " documents from knowledge base"
        { st with logs := logToSystem st.logs line "info" }

/-- `addDocument(english, malayalam, manglish)`: posts to
`/api/add-document`; a non-ok status is thrown; the catch appends a system
message carrying the error text plus an error log entry and returns `false`.
On success it appends a system message and an info log entry, fires
`loadDocuments()` (not awaited; `reload` is that fetch's outcome) and
returns `true`. -/
def addDocument (st : UIState) (english malayalam manglish : String)
    (outcome : FetchOutcome AddDocData) (reload : FetchOutcome DocsBody) :
    UIState × Bool :=
  let _ := malayalam
  let _ := manglish
  let st := { st with fetchCalls := st.fetchCalls ++ ["/api/add-document"] }
  let caught := fun (st : UIState) (msg : String) =>
    let st := { st with chat := addMessage st.chat .system ("❌ Error adding document: " ++ msg) }
    ({ st with logs := logToSystem st.logs ("Error adding document: " ++ msg) "error" }, false)
  match outcome with
  | .networkError msg => caught st msg
  | .response status json =>
    if !statusOk status then
      caught st ("HTTP error! status: " ++ toString status)
    else
      match json with
      | .error msg => caught st msg
      | .ok data =>
        let st := { st with chat := addMessage st.chat .system ("✅ Document added successfully! ID: " ++ data.id) }
        let line := "Added new document: " ++ jsSubstring50 english ++ "..."
        let st := { st with logs := logToSystem st.logs line "info" }
        (loadDocuments st reload, true)

/-- `sendAudioToBackend(audioBlob)`: posts the recording to
`/api/voice-query` without checking `response.ok`; on success renders the
transcript as a user message and the answer as a bot message and sets the
audio source when given.  The catch appends one bot message and writes no
log entry (only `console.error`). -/
def sendAudioToBackend (st : UIState) (outcome : FetchOutcome VoiceData) :
    UIState :=
  let st := { st with fetchCalls := st.fetchCalls ++ ["/api/voice-query"] }
  let caught := fun (st : UIState) =>
    { st with chat := addMessage st.chat .bot "Error processing voice input" }
  match outcome with
  | .networkError _msg => caught st
  | .response _status json =>
    match json with
    | .error _msg => caught st
    | .ok data =>
      let st := { st with chat := addMessage st.chat .user data.text }
      let st := { st with chat := addMessage st.chat .bot data.answer }
      match data.audio_url with
      | some url => { st with audioSrc := some (apiBaseUrl ++ url) }
      | none => st

/-- The `addDocumentForm` submit handler: reads and trims the three fields;
when English or Malayalam is empty it alerts and returns (no `addDocument`
call); otherwise it awaits `addDocument` and resets the form on success. -/
def addDocumentFormSubmit (st : UIState)
    (outcome : FetchOutcome AddDocData) (reload : FetchOutcome DocsBody) :
    UIState :=
  let english := jsTrim st.formEnglish
  let malayalam := jsTrim st.formMalayalam
  let manglish := jsTrim st.formManglish
  if english = "" || malayalam = "" then
    { st with alerts := st.alerts ++ ["Please fill in at least English and Malayalam versions"] }
  else
    let result := addDocument st english malayalam manglish outcome reload
    if result.2 then
      { result.1 with formEnglish := "", formMalayalam := "", formManglish := "" }
    else result.1

/-- `updateRecognitionLanguage()`: returns at once when `recognition` is
null; otherwise sets `recognition.lang` by the switch on `currentLanguage`. -/
def updateRecognitionLanguage (st : UIState) : UIState :=
  if !st.recognitionSupported then st
  else
    match st.currentLanguage with
    | "ml" => { st with recognitionLang := "ml-IN" }
    | "manglish" => { st with recognitionLang := "en-IN" }
    | _ => { st with recognitionLang := "en-US" }

/-- The language-button click handler: stores the selected language, updates
the recognition locale, switches the input placeholder, and announces the
change with a system message showing the button label. -/
def langButtonClick (st : UIState) (lang : String) (buttonLabel : String) :
    UIState :=
  let st := { st with currentLanguage := lang }
  let st := updateRecognitionLanguage st
  let ph :=
    match lang with
    | "ml" => "ഇവിടെ നിങ്ങളുടെ ചോദ്യം ടൈപ്പ് ചെയ്യുക... അല്ലെങ്കിൽ മൈക്കിൽ ക്ലിക്ക് ചെയ്ത് സംസാരിക്കുക"
    | "manglish" => "Type your question here... or click mic to speak in Manglish"
    | _ => "Type your question here... or click the mic to speak"
  let st := { st with placeholder := ph }
  { st with chat := addMessage st.chat .system ("Language set to: " ++ buttonLabel) }

/-- `toggleVoiceRecording()`: with no recognition object it only posts a
system message.  While `isRecording` it calls `recognition.stop()` — modelled
as ending the recognition session when one is running (`onend` resets the
flag) and as a no-op otherwise, per Web Speech semantics.  Otherwise it calls
`recognition.start()`, whose `onstart` callback sets `isRecording` and posts
the listening message (the callback is modelled as firing synchronously). -/
def toggleVoiceRecording (st : UIState) : UIState :=
  if !st.recognitionSupported then
    { st with chat := addMessage st.chat .system "Voice recognition is not supported in your browser." }
  else if st.isRecording then
    if st.recognitionActive then
      { st with recognitionActive := false, isRecording := false }
    else st
  else
    let st := { st with recognitionActive := true, isRecording := true }
    { st with chat := addMessage st.chat .system "Listening... Speak now!" }

/-- `startMediaRecording()`: requests the microphone; on grant it creates a
MediaRecorder, starts it and sets `isRecording`, with no check whether a
recognition or capture session is already active; on denial it posts a
system message.  (Chunk accumulation and the onstop upload are separate
events, not part of this call.) -/
def startMediaRecording (st : UIState) (permissionGranted : Bool) : UIState :=
  if permissionGranted then
    { st with captureActive := true, isRecording := true }
  else
    { st with chat := addMessage st.chat .system "Microphone access denied. Please allow microphone permissions." }

/-- Number of voice sessions (recognition or capture) currently active. -/
def sessionsActive (st : UIState) : Nat :=
  (if st.recognitionActive then 1 else 0) + (if st.captureActive then 1 else 0)

/-- The page state right after script load (globals at their initial values,
all containers empty, recognition available). -/
def initialState : UIState :=
  { currentLanguage := "auto"
    isRecording := false
    recognitionSupported := true
    recognitionLang := "en-US"
    recognitionActive := false
    captureActive := false
    messageInput := ""
    placeholder := "Type your question here... or click the mic to speak"
    speechSynthesisSupported := true
    audioSrc := none
    utterances := []
    chat := []
    logs := []
    documentsList := []
    formEnglish := ""
    formMalayalam := ""
    formManglish := ""
    alerts := []
    fetchCalls := [] }

/-- The error text observed by `sendMessage`'s catch block (`error.message`):
`none` when the operation takes its success path.  A non-ok status is a
failure because `sendMessage` throws on `!response.ok`. -/
def queryFailText : FetchOutcome QueryData → Option String
  | .networkError msg => some msg
  | .response status json =>
    if !statusOk status then some ("HTTP error! status: " ++ toString status)
    else
      match json with
      | .error msg => some msg
      | .ok _ => none

/-- The error text observed by `addDocument`'s catch block; same shape as for
the query, since `addDocument` also throws on `!response.ok`. -/
def addDocFailText : FetchOutcome AddDocData → Option String
  | .networkError msg => some msg
  | .response status json =>
    if !statusOk status then some ("HTTP error! status: " ++ toString status)
    else
      match json with
      | .error msg => some msg
      | .ok _ => none

/-- The error text observed by `loadDocuments`'s catch block.  The status is
never consulted (the code reads `response.json()` without checking
`response.ok`); the third failure source is the TypeError thrown by
`data.documents.forEach` when the parsed body has no `documents` array. -/
def docsFailText : FetchOutcome DocsBody → Option String
  | .networkError msg => some msg
  | .response _status json =>
    match json with
    | .error msg => some msg
    | .ok body =>
      match body.documents with
      | none => some undefinedForEachMessage
      | some _ => none

/-- The error text observed by `sendAudioToBackend`'s catch block; the status
is never consulted there either. -/
def voiceFailText : FetchOutcome VoiceData → Option String
  | .networkError msg => some msg
  | .response _status json =>
    match json with
    | .error msg => some msg
    | .ok _ => none

/-- Number of bot-role messages in the chat. -/
def botCount (chat : List Message) : Nat :=
  (chat.filter (fun m => decide (m.sender = Sender.bot))).length

lemma botCount_addMessage (chat : List Message) (s : Sender) (t : String) :
    botCount (addMessage chat s t) =
      botCount chat + (if s = Sender.bot then 1 else 0) := by
  cases s <;> simp [botCount, addMessage, List.filter_append]

lemma getLast?_append_singleton {α : Type} (l : List α) (a : α) :
    (l ++ [a]).getLast? = some a := by
  induction l with
  | nil => rfl
  | cons b l ih =>
    rw [List.cons_append, List.getLast?_cons, ih]
    cases l <;> simp

lemma sendMessage_failure_eq (st : UIState) (outcome : FetchOutcome QueryData)
    (m : String) (hfail : queryFailText outcome = some m)
    (hne : jsTrim st.messageInput ≠ "") :
    sendMessage st outcome = { st with messageInput := "", chat := addMessage (addMessage st.chat .user (jsTrim st.messageInput)) .bot queryErrorMessage, logs := logToSystem st.logs ("Error: " ++ m) "error", fetchCalls := st.fetchCalls ++ ["/api/query"] } := by
  rcases outcome with msg | ⟨status, json⟩
  · simp only [queryFailText, Option.some.injEq] at hfail
    subst hfail
    simp [sendMessage, hne]
  · simp only [queryFailText] at hfail
    by_cases hs : statusOk status
    · simp only [hs, Bool.not_true, Bool.false_eq_true, if_false] at hfail
      rcases json with msg | data
      · simp only [Option.some.injEq] at hfail
        subst hfail
        simp [sendMessage, hne, hs]
      · simp at hfail
    · simp only [Bool.not_eq_true] at hs
      simp only [hs, Bool.not_false, if_true, Option.some.injEq] at hfail
      subst hfail
      simp [sendMessage, hne, hs]

lemma addDocument_failure_eq (st : UIState) (english malayalam manglish : String)
    (outcome : FetchOutcome AddDocData) (reload : FetchOutcome DocsBody)
    (m : String) (hfail : addDocFailText outcome = some m) :
    addDocument st english malayalam manglish outcome reload = ({ st with chat := addMessage st.chat .system ("❌ Error adding document: " ++ m), logs := logToSystem st.logs ("Error adding document: " ++ m) "error", fetchCalls := st.fetchCalls ++ ["/api/add-document"] }, false) := by
  rcases outcome with msg | ⟨status, json⟩
  · simp only [addDocFailText, Option.some.injEq] at hfail
    subst hfail
    simp [addDocument]
  · simp only [addDocFailText] at hfail
    by_cases hs : statusOk status
    · simp only [hs, Bool.not_true, Bool.false_eq_true, if_false] at hfail
      rcases json with msg | data
      · simp only [Option.some.injEq] at hfail
        subst hfail
        simp [addDocument, hs]
      · simp at hfail
    · simp only [Bool.not_eq_true] at hs
      simp only [hs, Bool.not_false, if_true, Option.some.injEq] at hfail
      subst hfail
      simp [addDocument, hs]

lemma loadDocuments_networkError (st : UIState) (m : String) :
    loadDocuments st (.networkError m) = { st with fetchCalls := st.fetchCalls ++ ["/api/documents"], logs := logToSystem st.logs ("Error loading documents: " ++ m) "error" } :=
  rfl

lemma loadDocuments_jsonError (st : UIState) (status : Nat) (m : String) :
    loadDocuments st (.response status (.error m)) = { st with fetchCalls := st.fetchCalls ++ ["/api/documents"], logs := logToSystem st.logs ("Error loading documents: " ++ m) "error" } :=
  rfl

lemma loadDocuments_missingField (st : UIState) (status : Nat) :
    loadDocuments st (.response status (.ok { documents := none })) = { st with fetchCalls := st.fetchCalls ++ ["/api/documents"], documentsList := [], logs := logToSystem st.logs ("Error loading documents: " ++ undefinedForEachMessage) "error" } :=
  rfl

lemma loadDocuments_failure_effects (st : UIState) (outcome : FetchOutcome DocsBody)
    (m : String) (hfail : docsFailText outcome = some m) :
    (loadDocuments st outcome).logs = logToSystem st.logs ("Error loading documents: " ++ m) "error" ∧
      (loadDocuments st outcome).chat = st.chat := by
  rcases outcome with msg | ⟨status, json⟩
  · simp only [docsFailText, Option.some.injEq] at hfail
    subst hfail
    rw [loadDocuments_networkError]
    exact ⟨rfl, rfl⟩
  · rcases json with msg | body
    · simp only [docsFailText, Option.some.injEq] at hfail
      subst hfail
      rw [loadDocuments_jsonError]
      exact ⟨rfl, rfl⟩
    · rcases body with ⟨_ | docs⟩
      · simp only [docsFailText, Option.some.injEq] at hfail
        subst hfail
        rw [loadDocuments_missingField]
        exact ⟨rfl, rfl⟩
      · simp [docsFailText] at hfail

lemma sendAudioToBackend_failure_eq (st : UIState) (outcome : FetchOutcome VoiceData)
    (m : String) (hfail : voiceFailText outcome = some m) :
    sendAudioToBackend st outcome = { st with chat := addMessage st.chat .bot "Error processing voice input", fetchCalls := st.fetchCalls ++ ["/api/voice-query"] } := by
  rcases outcome with msg | ⟨status, json⟩
  · rfl
  · rcases json with msg | data
    · rfl
    · simp [voiceFailText] at hfail

lemma loadDocuments_fetchCalls (st : UIState) (outcome : FetchOutcome DocsBody) :
    (loadDocuments st outcome).fetchCalls = st.fetchCalls ++ ["/api/documents"] := by
  rcases outcome with msg | ⟨status, json⟩
  · rfl
  · rcases json with msg | ⟨_ | docs⟩
    · rfl
    · rfl
    · rfl

/-- Claim C5: for every language value, selecting the language configures the
speech-recognition locale: `ml` maps to `ml-IN`, `manglish` to `en-IN`, and
any other value to `en-US` (the recognition object must exist, i.e. the
capability is supported — otherwise there is no locale to configure). -/
theorem C5_language_locale (st : UIState) (lang buttonLabel : String)
    (h : st.recognitionSupported = true) :
    (langButtonClick st lang buttonLabel).recognitionLang =
      (if lang = "ml" then "ml-IN" else if lang = "manglish" then "en-IN" else "en-US") := by
  unfold langButtonClick updateRecognitionLanguage
  simp only [h, Bool.not_true]
  split
  · simp_all
  · split <;> simp_all

theorem C5_language_locale_witness :
    (langButtonClick initialState "manglish" "Manglish").recognitionLang = "en-IN" := by
  have h := C5_language_locale initialState "manglish" "Manglish" rfl
  simpa using h

/-- Claim C10: a `sendMessage` invocation whose input is empty or whitespace
after trimming is a no-op: the whole state — chat, input field, fetch trace —
is unchanged. -/
theorem C10_blank_input_noop (st : UIState) (outcome : FetchOutcome QueryData)
    (h : jsTrim st.messageInput = "") :
    sendMessage st outcome = st := by
  unfold sendMessage
  simp [h]

theorem C10_blank_input_noop_witness :
    sendMessage { initialState with messageInput := "   " }
        (.networkError "Failed to fetch") =
      { initialState with messageInput := "   " } :=
  C10_blank_input_noop _ _ (by decide)

/-- Claim C6: a form submission with either required field blank after
trimming only alerts: no network call is issued (the fetch trace is
unchanged, so `addDocument` ran no request). -/
theorem C6_validation_blocks_request (st : UIState)
    (outcome : FetchOutcome AddDocData) (reload : FetchOutcome DocsBody)
    (h : jsTrim st.formEnglish = "" ∨ jsTrim st.formMalayalam = "") :
    addDocumentFormSubmit st outcome reload =
        { st with alerts := st.alerts ++ ["Please fill in at least English and Malayalam versions"] } ∧
      (addDocumentFormSubmit st outcome reload).fetchCalls = st.fetchCalls := by
  unfold addDocumentFormSubmit
  rcases h with h | h <;> simp [h]

/-- A concrete form state with a whitespace-only Malayalam field, used to
exercise the validation path. -/
def blankMalayalamState : UIState :=
  { initialState with formEnglish := "Library opens at 9", formMalayalam := "  " }

theorem C6_validation_blocks_request_witness :
    addDocumentFormSubmit blankMalayalamState
          (.networkError "boom") (.networkError "boom") =
        { blankMalayalamState with alerts := blankMalayalamState.alerts ++ ["Please fill in at least English and Malayalam versions"] } ∧
      (addDocumentFormSubmit blankMalayalamState
          (.networkError "boom") (.networkError "boom")).fetchCalls =
        blankMalayalamState.fetchCalls :=
  C6_validation_blocks_request blankMalayalamState
    (.networkError "boom") (.networkError "boom") (Or.inr (by decide))

/-- Claim C8: the message appended to the chat carries the `malayalam-text`
marker exactly when the regex matches: any text with a code point in the
Malayalam block U+0D00–U+0D7F is marked, and pure-ASCII text is not. -/
theorem C8_malayalam_marker (chat : List Message) (sender : Sender) (text : String) :
    (addMessage chat sender text).getLast? =
        some { sender := sender, text := text, malayalamClass := hasMalayalam text } ∧
      ((∃ c ∈ text.data, 0x0D00 ≤ c.toNat ∧ c.toNat ≤ 0x0D7F) → hasMalayalam text = true) ∧
      ((∀ c ∈ text.data, c.toNat < 0x80) → hasMalayalam text = false) := by
  refine ⟨getLast?_append_singleton _ _, ?_, ?_⟩
  · rintro ⟨c, hc, h1, h2⟩
    unfold hasMalayalam
    rw [List.any_eq_true]
    exact ⟨c, hc, by simp [h1, h2]⟩
  · intro h
    unfold hasMalayalam
    rw [List.any_eq_false]
    intro c hc
    have := h c hc
    simp only [decide_eq_true_eq, not_and]
    intro h1
    omega

theorem C8_malayalam_marker_witness :
    hasMalayalam "നമസ്കാരം" = true ∧ hasMalayalam "Library hours" = false :=
  ⟨(C8_malayalam_marker [] .bot "നമസ്കാരം").2.1 (by decide),
   (C8_malayalam_marker [] .bot "Library hours").2.2 (by decide)⟩

/-- Claim C4: a `sendMessage` with non-empty trimmed input whose request
fails (network error or non-2xx status, and likewise a JSON-parse failure,
which lands in the same catch) never escapes the catch block — the result
state is fully determined — and appends exactly one bot-role message (the
generic error text) and exactly one log entry. -/
theorem C4_query_failure_effects (st : UIState) (outcome : FetchOutcome QueryData)
    (m : String) (hfail : queryFailText outcome = some m)
    (hne : jsTrim st.messageInput ≠ "") :
    (sendMessage st outcome).chat =
        addMessage (addMessage st.chat .user (jsTrim st.messageInput)) .bot queryErrorMessage ∧
      (sendMessage st outcome).logs = logToSystem st.logs ("Error: " ++ m) "error" ∧
      botCount (sendMessage st outcome).chat = botCount st.chat + 1 ∧
      (sendMessage st outcome).logs.length = st.logs.length + 1 := by
  have hbot : botCount (addMessage (addMessage st.chat .user (jsTrim st.messageInput)) .bot queryErrorMessage) = botCount st.chat + 1 := by
    rw [botCount_addMessage, botCount_addMessage]
    simp
  rcases outcome with msg | ⟨status, json⟩
  · simp only [queryFailText, Option.some.injEq] at hfail
    subst hfail
    refine ⟨?_, ?_, ?_, ?_⟩ <;> simp [sendMessage, hne, hbot, logToSystem]
  · simp only [queryFailText] at hfail
    by_cases hs : statusOk status
    · simp only [hs, Bool.not_true, Bool.false_eq_true, if_false] at hfail
      rcases json with msg | data
      · simp only [Option.some.injEq] at hfail
        subst hfail
        refine ⟨?_, ?_, ?_, ?_⟩ <;> simp [sendMessage, hne, hs, hbot, logToSystem]
      · simp at hfail
    · simp only [Bool.not_eq_true] at hs
      simp only [hs, Bool.not_false, if_true, Option.some.injEq] at hfail
      subst hfail
      refine ⟨?_, ?_, ?_, ?_⟩ <;> simp [sendMessage, hne, hs, hbot, logToSystem]

theorem C4_query_failure_effects_witness :
    botCount (sendMessage { initialState with messageInput := "What are the library hours?" } (.response 500 (.error "server"))).chat = botCount ({ initialState with messageInput := "What are the library hours?" } : UIState).chat + 1 ∧
      (sendMessage { initialState with messageInput := "What are the library hours?" } (.response 500 (.error "server"))).logs.length = ({ initialState with messageInput := "What are the library hours?" } : UIState).logs.length + 1 :=
  ⟨(C4_query_failure_effects _ (.response 500 (.error "server")) "HTTP error! status: 500" (by decide) (by decide)).2.2.1,
   (C4_query_failure_effects { initialState with messageInput := "What are the library hours?" } (.response 500 (.error "server")) "HTTP error! status: 500" (by decide) (by decide)).2.2.2⟩

/-- Claim C1 (amended): no operation lets a raw transport exception escape —
each result state is totally determined by explicit case analysis on the
caught failure — but the four operations do not share one normalization
rule: `query` and `addDocument` produce a user-facing message plus an error
log entry carrying the error text; `listDocuments` produces only the log
entry (no user-facing message, the chat is unchanged); `voiceQuery` produces
only a generic user-facing message (its state equation shows the logs are
untouched); and `listDocuments` and `voiceQuery` never consult the HTTP
status, so only a network or JSON failure reaches their catch blocks. -/
theorem C1_error_normalization (st : UIState) :
    (∀ (o : FetchOutcome QueryData) (m : String), queryFailText o = some m →
      jsTrim st.messageInput ≠ "" →
      sendMessage st o = { st with messageInput := "", chat := addMessage (addMessage st.chat .user (jsTrim st.messageInput)) .bot queryErrorMessage, logs := logToSystem st.logs ("Error: " ++ m) "error", fetchCalls := st.fetchCalls ++ ["/api/query"] }) ∧
    (∀ (o : FetchOutcome DocsBody) (m : String), docsFailText o = some m →
      (loadDocuments st o).logs = logToSystem st.logs ("Error loading documents: " ++ m) "error" ∧
        (loadDocuments st o).chat = st.chat) ∧
    (∀ (english malayalam manglish : String) (o : FetchOutcome AddDocData)
        (reload : FetchOutcome DocsBody) (m : String), addDocFailText o = some m →
      addDocument st english malayalam manglish o reload = ({ st with chat := addMessage st.chat .system ("❌ Error adding document: " ++ m), logs := logToSystem st.logs ("Error adding document: " ++ m) "error", fetchCalls := st.fetchCalls ++ ["/api/add-document"] }, false)) ∧
    (∀ (o : FetchOutcome VoiceData) (m : String), voiceFailText o = some m →
      sendAudioToBackend st o = { st with chat := addMessage st.chat .bot "Error processing voice input", fetchCalls := st.fetchCalls ++ ["/api/voice-query"] }) := by
  refine ⟨?_, ?_, ?_, ?_⟩
  · intro o m hfail hne
    exact sendMessage_failure_eq st o m hfail hne
  · intro o m hfail
    exact loadDocuments_failure_effects st o m hfail
  · intro english malayalam manglish o reload m hfail
    exact addDocument_failure_eq st english malayalam manglish o reload m hfail
  · intro o m hfail
    exact sendAudioToBackend_failure_eq st o m hfail

theorem C1_error_normalization_witness :
    (sendAudioToBackend initialState (.networkError "Failed to fetch")) = { initialState with chat := addMessage initialState.chat .bot "Error processing voice input", fetchCalls := initialState.fetchCalls ++ ["/api/voice-query"] } ∧
      sendMessage { initialState with messageInput := "hello" } (.networkError "Failed to fetch") = { initialState with messageInput := "", chat := addMessage (addMessage initialState.chat .user "hello") .bot queryErrorMessage, logs := logToSystem initialState.logs "Error: Failed to fetch" "error", fetchCalls := initialState.fetchCalls ++ ["/api/query"] } := by
  constructor
  · exact (C1_error_normalization initialState).2.2.2 (.networkError "Failed to fetch")
      "Failed to fetch" rfl
  · have h := (C1_error_normalization { initialState with messageInput := "hello" }).1
      (.networkError "Failed to fetch") "Failed to fetch" rfl (by decide)
    simpa using h

/-- Counterexample to claim C1 as stated: a `voiceQuery` transport failure
produces no structured log entry at all (only the bot message), and a
`listDocuments` transport failure produces no user-facing message (the chat
stays empty) — so not every operation yields "a generic user-facing error
message plus a structured log entry". -/
theorem C1_error_normalization_counterexample :
    (sendAudioToBackend initialState (.networkError "Failed to fetch")).logs = [] ∧
      (loadDocuments initialState (.networkError "Failed to fetch")).chat = [] :=
  ⟨rfl, rfl⟩

/-- Claim C2 (amended): when `listDocuments` fails, exactly one error log
entry is produced, but the documents container is left exactly as it was for
a network error or a JSON-parse error; only when a parsed body lacks the
`documents` array is the container cleared (the code clears it just before
the failing `forEach`). -/
theorem C2_listDocuments_failure (st : UIState) :
    (∀ m, loadDocuments st (.networkError m) = { st with fetchCalls := st.fetchCalls ++ ["/api/documents"], logs := logToSystem st.logs ("Error loading documents: " ++ m) "error" }) ∧
      (∀ status m, loadDocuments st (.response status (.error m)) = { st with fetchCalls := st.fetchCalls ++ ["/api/documents"], logs := logToSystem st.logs ("Error loading documents: " ++ m) "error" }) ∧
      (∀ status, loadDocuments st (.response status (.ok { documents := none })) = { st with fetchCalls := st.fetchCalls ++ ["/api/documents"], documentsList := [], logs := logToSystem st.logs ("Error loading documents: " ++ undefinedForEachMessage) "error" }) :=
  ⟨fun m => loadDocuments_networkError st m,
   fun status m => loadDocuments_jsonError st status m,
   fun status => loadDocuments_missingField st status⟩

/-- A page state in which a previous fetch already rendered one document. -/
def seededDocsState : UIState :=
  { initialState with documentsList := [{ number := 1, en := "Library opens at 9am", ml := none, manglish := none }] }

/-- Counterexample to claim C2 as stated: a network failure logs one entry
but leaves the previously rendered (non-empty) document list in place — no
empty list is rendered. -/
theorem C2_listDocuments_failure_counterexample :
    (loadDocuments seededDocsState (.networkError "Failed to fetch")).documentsList = seededDocsState.documentsList ∧
      seededDocsState.documentsList ≠ [] ∧
      (loadDocuments seededDocsState (.networkError "Failed to fetch")).logs.length = seededDocsState.logs.length + 1 := by
  refine ⟨rfl, ?_, rfl⟩
  decide

/-- Claim C7: a successful `addDocument` issues exactly one further
`/api/documents` request (the `loadDocuments()` refresh), whatever the
outcome of that refresh. -/
theorem C7_success_reloads_once (st : UIState) (english malayalam manglish : String)
    (outcome : FetchOutcome AddDocData) (reload : FetchOutcome DocsBody)
    (h : (addDocument st english malayalam manglish outcome reload).2 = true) :
    ((addDocument st english malayalam manglish outcome reload).1.fetchCalls).count "/api/documents" = st.fetchCalls.count "/api/documents" + 1 := by
  have h1 : (["/api/add-document"] : List String).count "/api/documents" = 0 := by decide
  have h2 : (["/api/documents"] : List String).count "/api/documents" = 1 := by decide
  rcases outcome with msg | ⟨status, json⟩
  · simp [addDocument] at h
  · by_cases hs : statusOk status
    · rcases json with msg | data
      · simp [addDocument, hs] at h
      · simp only [addDocument, hs, Bool.not_true, Bool.false_eq_true, if_false, ite_false]
        rw [loadDocuments_fetchCalls]
        simp only [List.count_append, h1, h2]
    · simp [addDocument, hs] at h

theorem C7_success_reloads_once_witness :
    ((addDocument initialState "Library opens at 9" "ലൈബ്രറി" "" (.response 200 (.ok { id := "7" })) (.networkError "down")).1.fetchCalls).count "/api/documents" = initialState.fetchCalls.count "/api/documents" + 1 :=
  C7_success_reloads_once initialState "Library opens at 9" "ലൈബ്രറി" ""
    (.response 200 (.ok { id := "7" })) (.networkError "down") (by decide)

/-- Claim C9: once validation passes, a successful `addDocument` leads to the
three form fields being cleared, while a failed one leaves all three fields
exactly as they were and surfaces the error to the user as a system chat
message carrying the error text. -/
theorem C9_form_submission (st : UIState) (outcome : FetchOutcome AddDocData)
    (reload : FetchOutcome DocsBody) (hEn : jsTrim st.formEnglish ≠ "")
    (hMl : jsTrim st.formMalayalam ≠ "") :
    (addDocFailText outcome = none →
      (addDocumentFormSubmit st outcome reload).formEnglish = "" ∧
        (addDocumentFormSubmit st outcome reload).formMalayalam = "" ∧
        (addDocumentFormSubmit st outcome reload).formManglish = "") ∧
    (∀ m, addDocFailText outcome = some m →
      (addDocumentFormSubmit st outcome reload).formEnglish = st.formEnglish ∧
        (addDocumentFormSubmit st outcome reload).formMalayalam = st.formMalayalam ∧
        (addDocumentFormSubmit st outcome reload).formManglish = st.formManglish ∧
        (addDocumentFormSubmit st outcome reload).chat = addMessage st.chat .system ("❌ Error adding document: " ++ m)) := by
  constructor
  · intro hnone
    rcases outcome with msg | ⟨status, json⟩
    · simp [addDocFailText] at hnone
    · by_cases hs : statusOk status
      · rcases json with msg | data
        · simp [addDocFailText, hs] at hnone
        · simp [addDocumentFormSubmit, addDocument, hEn, hMl, hs]
      · simp [addDocFailText, hs] at hnone
  · intro m hm
    have heq := addDocument_failure_eq st (jsTrim st.formEnglish) (jsTrim st.formMalayalam)
      (jsTrim st.formManglish) outcome reload m hm
    refine ⟨?_, ?_, ?_, ?_⟩ <;> simp [addDocumentFormSubmit, hEn, hMl, heq]

/-- A form state with both required fields filled. -/
def validFormState : UIState :=
  { initialState with formEnglish := "Library opens at 9", formMalayalam := "ലൈബ്രറി" }

theorem C9_form_submission_witness :
    (addDocumentFormSubmit validFormState (.response 200 (.ok { id := "3" })) (.networkError "down")).formEnglish = "" ∧
      (addDocumentFormSubmit validFormState (.networkError "down") (.networkError "down")).formEnglish = validFormState.formEnglish ∧
      (addDocumentFormSubmit validFormState (.networkError "down") (.networkError "down")).chat = addMessage validFormState.chat .system ("❌ Error adding document: " ++ "down") :=
  ⟨((C9_form_submission validFormState (.response 200 (.ok { id := "3" })) (.networkError "down") (by decide) (by decide)).1 rfl).1,
   ((C9_form_submission validFormState (.networkError "down") (.networkError "down") (by decide) (by decide)).2 "down" rfl).1,
   ((C9_form_submission validFormState (.networkError "down") (.networkError "down") (by decide) (by decide)).2 "down" rfl).2.2.2⟩

/-- Claim C3 (amended): the wired-up voice control, `toggleVoiceRecording`,
never starts a second session while one is active — with a consistent
`isRecording` flag it preserves "at most one active session", and it never
starts a capture session at all.  (The unused alternative entry point
`startMediaRecording` does not enjoy this: see the counterexample.) -/
theorem C3_single_session (st : UIState)
    (hflag : st.isRecording = (st.recognitionActive || st.captureActive))
    (hone : sessionsActive st ≤ 1) :
    sessionsActive (toggleVoiceRecording st) ≤ 1 ∧
      (toggleVoiceRecording st).captureActive = st.captureActive := by
  unfold toggleVoiceRecording
  cases hsup : st.recognitionSupported
  · simpa [sessionsActive] using hone
  · cases hrec : st.isRecording
    · rw [hrec] at hflag
      have h1 : st.recognitionActive = false := by
        cases hra : st.recognitionActive <;> simp_all
      have h2 : st.captureActive = false := by
        cases hca : st.captureActive <;> simp_all
      simp [sessionsActive, h1, h2]
    · cases hact : st.recognitionActive
      · simpa [sessionsActive, hact] using hone
      · simp [sessionsActive, hact]
        unfold sessionsActive at hone
        rw [hact] at hone
        omega

/-- A state in which a recognition session is listening. -/
def listeningState : UIState :=
  { initialState with recognitionActive := true, isRecording := true }

theorem C3_single_session_witness :
    sessionsActive (toggleVoiceRecording listeningState) ≤ 1 ∧
      (toggleVoiceRecording listeningState).captureActive = listeningState.captureActive :=
  C3_single_session listeningState (by decide) (by decide)

/-- Counterexample to claim C3 as stated: `startMediaRecording` — the start
of the capture variant — performs no active-session check, so invoked while
a recognition session is listening it is not rejected and not a no-op: it
starts a MediaRecorder and leaves two sessions active at once. -/
theorem C3_single_session_counterexample :
    sessionsActive listeningState = 1 ∧
      startMediaRecording listeningState true ≠ listeningState ∧
      sessionsActive (startMediaRecording listeningState true) = 2 := by
  refine ⟨rfl, ?_, rfl⟩
  decide

end VoiceAssistant
